import Mathlib

/-
Shallow embedding of the reconciliation core of the aiinstaller repository:
the GitHub issues adapter (src/adapters/github/github_issues.py), the GitHub
projects adapter (src/adapters/github/github_projects.py) and the validation
service (src/services/validation_service.py).

The remote tracker (the GitHub client of src/adapters/github/client.py) is an
external collaborator; it is modelled as a deterministic oracle environment
(ClientEnv): each client operation is a field giving, per argument tuple, the
value returned or the exception raised.  Adapter functions additionally return
the list of client calls they performed (a trace), so that read-only versus
mutating behaviour is provable.  Python exceptions are modelled with Except;
Python dictionaries keyed by insertion order are modelled as association lists.
-/

namespace PMaC

/-- Remote issue record as read by the adapter: it reads number, title and the
label names (issue.labels is a list of label objects of which only the name
field is consulted), so labels is the list of label names. -/
structure Issue where
  number : Nat
  title : String
  labels : List String
  body : String
deriving DecidableEq, Repr

/-- Story domain model (src/core/domain_models.py): id, summary, description,
epic_id (empty string when not set), story_points, free-form labels, status. -/
structure Story where
  id : String
  summary : String
  description : String
  epic_id : String
  story_points : Nat
  labels : List String
  status : String
deriving DecidableEq, Repr

/-- Epic domain model (src/core/domain_models.py). -/
structure Epic where
  id : String
  title : String
  description : String
  stories : List String
deriving DecidableEq, Repr

/-- Board domain model (src/core/domain_models.py): initial_assignments is a
Python dict from column name to story ids, modelled as an association list in
insertion order. -/
structure Board where
  name : String
  type : String
  columns : List String
  initial_assignments : List (String × List String)
deriving DecidableEq, Repr

/-- Remote project record: the adapter reads number and the optional title and
name fields via dict.get, so both are Option. -/
structure Project where
  number : Nat
  title : Option String
  pname : Option String
deriving DecidableEq, Repr

/-- One remote client call, recorded in traces.  listIssues and listProjects
are the read-only discovery operations; the other four mutate remote state. -/
inductive TrackerCall where
  | listIssues : TrackerCall
  | createIssue : String → TrackerCall
  | createLabel : String → TrackerCall
  | listProjects : String → TrackerCall
  | createProject : String → TrackerCall
  | addIssueToProject : Nat → Nat → TrackerCall
deriving DecidableEq, Repr

/-- Deterministic oracle for the GitHub client collaborator: for each client
operation, the result returned or (as Except.error) the exception raised. -/
structure ClientEnv where
  repo : String
  listIssuesResult : Except String (List Issue)
  createIssueResult : String → String → List String → Except String Issue
  createLabelResult : String → String → String → Except String Unit
  listProjectsResult : String → Except String (List Project)
  createProjectResult : String → String → Except String Project
  addIssueToProjectResult : Nat → Nat → String → Except String Unit

/-- The characters of a string before its first slash — the first component
of a Python str.split on the slash separator. -/
def beforeSlash : List Char → List Char
  | [] => []
  | c :: cs => if c = '/' then [] else c :: beforeSlash cs

/-- The repository owner used as the default project owner: the part of the
repo field (formatted owner/name) before the first slash, as computed by the
adapters from config.repo. -/
def repoOwner (env : ClientEnv) : String :=
  ⟨beforeSlash env.repo.data⟩

/-- GitHubIssuesAdapter.find_existing_issue: list all issues (the client may
raise, which propagates), then scan for an issue whose label names contain the
story id (first match returned), then scan again for an issue whose title
equals the story summary, else None. -/
def find_existing_issue (env : ClientEnv) (story : Story) :
    Except String (Option Issue) × List TrackerCall :=
  match env.listIssuesResult with
  | .error e => (.error e, [.listIssues])
  | .ok issues =>
      match issues.find? (fun issue => issue.labels.contains story.id) with
      | some issue => (.ok (some issue), [.listIssues])
      | none =>
          (.ok (issues.find? (fun issue => issue.title == story.summary)),
           [.listIssues])

/-- Issue creation payload: title, body, labels. -/
structure IssuePayload where
  title : String
  body : String
  labels : List String
deriving DecidableEq, Repr

/-- GitHubIssuesAdapter.story_to_issue_payload: labels are the story labels
plus the story id, plus epic:<epic_id> when epic_id is non-empty, plus
points:<n> when story_points > 0; the body is the description followed by a
generated metadata section. -/
def story_to_issue_payload (story : Story) (epic : Option Epic) : IssuePayload :=
  let labels := story.labels ++ [story.id]
  let labels := labels ++
    (if story.epic_id = "" then [] else ["epic:" ++ story.epic_id])
  let labels := labels ++
    (if story.story_points > 0 then ["points:" ++ toString story.story_points]
     else [])
  let body := story.description ++ "\n\n" ++ "## Metadata\n" ++
    "- **ID:** " ++ story.id ++ "\n" ++
    "- **Epic:** " ++ story.epic_id ++ "\n" ++
    (match epic with
     | some e => "- **Epic Title:** " ++ e.title ++ "\n"
     | none => "") ++
    "- **Story Points:** " ++ toString story.story_points ++ "\n" ++
    "- **Status:** " ++ story.status ++ "\n"
  let body := body ++
    (if story.labels = [] then ""
     else "\n## Labels\n" ++
       String.join (story.labels.map (fun l => "- " ++ l ++ "\n")))
  { title := story.summary, body := body, labels := labels }

/-- A label creation request: name, color, description. -/
structure LabelData where
  lname : String
  color : String
  descr : String
deriving DecidableEq, Repr

/-- The required_labels list built by GitHubIssuesAdapter.ensure_labels_exist:
one label per story id, one epic:<id> label per epic, one points:<n> label for
every n from 1 to 10, and one label per distinct free-form tag across all
stories.  The Python code collects the tags into a set before iterating; set
iteration order is unspecified there, so the model fixes the first-occurrence
order via eraseDups (each distinct tag appears exactly once either way). -/
def requiredLabels (stories : List Story) (epics : List Epic) : List LabelData :=
  stories.map (fun s =>
    { lname := s.id, color := "FEF2C0", descr := "Story ID: " ++ s.id })
  ++ epics.map (fun e =>
    { lname := "epic:" ++ e.id, color := "0366D6", descr := e.title })
  ++ (List.range 10).map (fun k =>
    { lname := "points:" ++ toString (k + 1), color := "C2E0C6",
      descr := toString (k + 1) ++ " story points" })
  ++ ((stories.map Story.labels).flatten).eraseDups.map (fun l =>
    { lname := l, color := "D4C5F9", descr := "Tag: " ++ l })

/-- GitHubIssuesAdapter.ensure_labels_exist: attempts client.create_label for
every entry of required_labels; each call is wrapped in its own try/except
whose result is discarded (a failure is logged and skipped), so the function
returns unit and its trace is one createLabel call per required label. -/
def ensure_labels_exist (env : ClientEnv) (stories : List Story)
    (epics : List Epic) : Unit × List TrackerCall :=
  ((requiredLabels stories epics).foldl
    (fun _ ld =>
      match env.createLabelResult ld.lname ld.color ld.descr with
      | .ok _ => ()
      | .error _ => ()) (),
   (requiredLabels stories epics).map (fun ld => .createLabel ld.lname))

/-- GitHubIssuesAdapter.create_or_update_issue: discovery first (an exception
from list_issues propagates); an existing issue is returned with is_new false;
otherwise under dry_run return (none, true); otherwise call create_issue,
returning (issue, true) on success and — the exception being caught and only
logged — (none, false) on failure. -/
def create_or_update_issue (env : ClientEnv) (story : Story)
    (epic : Option Epic) (dry_run : Bool) :
    Except String (Option Issue × Bool) × List TrackerCall :=
  match find_existing_issue env story with
  | (.error e, t1) => (.error e, t1)
  | (.ok (some issue), t1) => (.ok (some issue, false), t1)
  | (.ok none, t1) =>
      if dry_run then (.ok (none, true), t1)
      else
        let payload := story_to_issue_payload story epic
        match env.createIssueResult payload.title payload.body payload.labels with
        | .ok issue => (.ok (some issue, true), t1 ++ [.createIssue payload.title])
        | .error _ => (.ok (none, false), t1 ++ [.createIssue payload.title])

/-- Entry of the created_issues / existing_issues lists of the sync summary. -/
structure SyncItem where
  story_id : String
  issue_number : Nat
  title : String
deriving DecidableEq, Repr

/-- Entry of the failed_issues list of the sync summary. -/
structure SyncFailure where
  story_id : String
  error : String
deriving DecidableEq, Repr

/-- The summary dict returned by sync_stories_to_issues. -/
structure SyncSummary where
  created : Nat
  existing : Nat
  failed : Nat
  total : Nat
  created_issues : List SyncItem
  existing_issues : List SyncItem
  failed_issues : List SyncFailure
  dry_run : Bool
deriving DecidableEq, Repr

/-- The dict comprehension epic_map = (epic.id : epic) followed by .get: later
entries overwrite earlier ones, so lookup yields the last epic with the id. -/
def epic_map_get (epics : List Epic) (eid : String) : Option Epic :=
  epics.foldl (fun acc e => if e.id = eid then some e else acc) none

/-- The per-story loop of sync_stories_to_issues, in list order: a result of
(some issue, true) is appended to created, (some issue, false) to existing, an
exception raised by create_or_update_issue is caught and appended to failed
with its message; a (none, _) result matches no branch of the if/elif and is
appended nowhere. -/
def syncLoop (env : ClientEnv) (epics : List Epic) (dry_run : Bool) :
    List Story → List SyncItem × List SyncItem × List SyncFailure × List TrackerCall
  | [] => ([], [], [], [])
  | story :: rest =>
      let epic := epic_map_get epics story.epic_id
      let r := create_or_update_issue env story epic dry_run
      let acc := syncLoop env epics dry_run rest
      match r.1 with
      | .ok (some issue, true) =>
          (⟨story.id, issue.number, issue.title⟩ :: acc.1, acc.2.1, acc.2.2.1,
           r.2 ++ acc.2.2.2)
      | .ok (some issue, false) =>
          (acc.1, ⟨story.id, issue.number, issue.title⟩ :: acc.2.1, acc.2.2.1,
           r.2 ++ acc.2.2.2)
      | .ok (none, _) =>
          (acc.1, acc.2.1, acc.2.2.1, r.2 ++ acc.2.2.2)
      | .error e =>
          (acc.1, acc.2.1, ⟨story.id, e⟩ :: acc.2.2.1, r.2 ++ acc.2.2.2)

/-- GitHubIssuesAdapter.sync_stories_to_issues: ensure_labels_exist first
unless dry_run, then the per-story loop, then the summary with the counts
being the lengths of the three itemized lists and total the input length. -/
def sync_stories_to_issues (env : ClientEnv) (stories : List Story)
    (epics : List Epic) (dry_run : Bool) : SyncSummary × List TrackerCall :=
  let labelTrace :=
    if dry_run then [] else (ensure_labels_exist env stories epics).2
  let acc := syncLoop env epics dry_run stories
  ({ created := acc.1.length
   , existing := acc.2.1.length
   , failed := acc.2.2.1.length
   , total := stories.length
   , created_issues := acc.1
   , existing_issues := acc.2.1
   , failed_issues := acc.2.2.1
   , dry_run := dry_run },
   labelTrace ++ acc.2.2.2)

/-- GitHubProjectsAdapter.find_existing_project: list the projects of the
owner and return the first whose title or name field equals the wanted name;
an exception from list_projects is caught, logged and turned into None. -/
def find_existing_project (env : ClientEnv) (pname : String) (owner : String) :
    Option Project × List TrackerCall :=
  match env.listProjectsResult owner with
  | .error _ => (none, [.listProjects owner])
  | .ok projects =>
      (projects.find? (fun p => p.title == some pname || p.pname == some pname),
       [.listProjects owner])

/-- GitHubProjectsAdapter.create_project: resolve the owner (defaulting to the
repository owner), reuse an existing project with is_new false, otherwise
under dry_run return (none, true), otherwise call create_project, an exception
being caught and turned into (none, false). -/
def create_project (env : ClientEnv) (pname : String) (owner : Option String)
    (dry_run : Bool) : (Option Project × Bool) × List TrackerCall :=
  let o := owner.getD (repoOwner env)
  match find_existing_project env pname o with
  | (some p, t1) => ((some p, false), t1)
  | (none, t1) =>
      if dry_run then ((none, true), t1)
      else
        match env.createProjectResult pname o with
        | .ok p => ((some p, true), t1 ++ [.createProject pname])
        | .error _ => ((none, false), t1 ++ [.createProject pname])

/-- GitHubProjectsAdapter.add_issue_to_project: under dry_run return true with
no call; otherwise call the client, true on success, an exception being caught
and turned into false. -/
def add_issue_to_project (env : ClientEnv) (projectNumber issueNumber : Nat)
    (owner : Option String) (dry_run : Bool) : Bool × List TrackerCall :=
  let o := owner.getD (repoOwner env)
  if dry_run then (true, [])
  else
    match env.addIssueToProjectResult projectNumber issueNumber o with
    | .ok _ => (true, [.addIssueToProject projectNumber issueNumber])
    | .error _ => (false, [.addIssueToProject projectNumber issueNumber])

/-- Entry of the added_issues_details / failed_issues_details lists of the
board summary. -/
structure LinkItem where
  story_id : String
  issue_number : Nat
  column : String
deriving DecidableEq, Repr

/-- The summary dict returned by create_board_from_model on its normal path
(the success field is written literally as true there). -/
structure BoardSummary where
  success : Bool
  project_name : String
  project_number : Option Nat
  is_new : Bool
  added_issues : Nat
  failed_issues : Nat
  added_issues_details : List LinkItem
  failed_issues_details : List LinkItem
  dry_run : Bool
deriving DecidableEq, Repr

/-- Result of create_board_from_model: either the early-return failure dict
(success false, message "Failed to create project") or the normal summary. -/
inductive BoardResult where
  | failure : Bool → Bool → BoardResult
  | summary : BoardSummary → BoardResult
deriving DecidableEq, Repr

/-- Inner loop of the item-linking step: for each story id of a column, skip
it silently when absent from issues_map, otherwise add the mapped issue to the
project, recording the (story, column) pair under added on success and under
failed on failure. -/
def linkStories (env : ClientEnv) (projectNumber : Nat)
    (issues_map : List (String × Nat)) (column : String) (dry_run : Bool) :
    List String → List LinkItem × List LinkItem × List TrackerCall
  | [] => ([], [], [])
  | sid :: rest =>
      let acc := linkStories env projectNumber issues_map column dry_run rest
      match issues_map.lookup sid with
      | none => acc
      | some n =>
          let r := add_issue_to_project env projectNumber n none dry_run
          if r.1 then (⟨sid, n, column⟩ :: acc.1, acc.2.1, r.2 ++ acc.2.2)
          else (acc.1, ⟨sid, n, column⟩ :: acc.2.1, r.2 ++ acc.2.2)

/-- Outer loop of the item-linking step over the initial_assignments map. -/
def linkAssignments (env : ClientEnv) (projectNumber : Nat)
    (issues_map : List (String × Nat)) (dry_run : Bool) :
    List (String × List String) → List LinkItem × List LinkItem × List TrackerCall
  | [] => ([], [], [])
  | (column, sids) :: rest =>
      let a := linkStories env projectNumber issues_map column dry_run sids
      let b := linkAssignments env projectNumber issues_map dry_run rest
      (a.1 ++ b.1, a.2.1 ++ b.2.1, a.2.2 ++ b.2.2)

/-- GitHubProjectsAdapter.create_board_from_model: create or reuse the project
for board.name; when no project resulted and dry_run is false, return the
failure dict early; the linking loops run only when dry_run is false and a
project is present; the summary carries the counts and detail lists. -/
def create_board_from_model (env : ClientEnv) (board : Board)
    (issues_map : List (String × Nat)) (dry_run : Bool) :
    BoardResult × List TrackerCall :=
  match create_project env board.name none dry_run with
  | ((project, is_new), t1) =>
      match project, dry_run with
      | none, false => (.failure is_new false, t1)
      | _, _ =>
          let link :=
            match dry_run, project with
            | false, some p =>
                linkAssignments env p.number issues_map false
                  board.initial_assignments
            | _, _ => ([], [], [])
          (.summary
            { success := true
            , project_name := board.name
            , project_number := project.map Project.number
            , is_new := is_new
            , added_issues := link.1.length
            , failed_issues := link.2.1.length
            , added_issues_details := link.1
            , failed_issues_details := link.2.1
            , dry_run := dry_run },
           t1 ++ link.2.2)

/-
Validation service (src/services/validation_service.py).  File loading and the
jsonschema library are external collaborators: the environment records, per
file name, whether the file is missing, malformed JSON, or parsed — in which
case it carries the list of formatted error messages the jsonschema Draft7
validator yields for that content (empty when the file conforms).  The four
loads done by validate_relationships are recorded as one Except whose error
carries the message of the caught exception.
-/

/-- Outcome of loading and schema-checking one data file. -/
inductive FileResult where
  | missing : FileResult
  | malformed : String → FileResult
  | parsed : List String → FileResult
deriving DecidableEq, Repr

/-- Story fields read by validate_relationships. -/
structure StoryRef where
  id : String
  epic_id : String
deriving DecidableEq, Repr

/-- Epic fields read by validate_relationships. -/
structure EpicRef where
  id : String
  stories : List String
deriving DecidableEq, Repr

/-- Sprint fields read by validate_relationships. -/
structure SprintRef where
  name : String
  stories : List String
deriving DecidableEq, Repr

/-- Board fields read by validate_relationships. -/
structure BoardRef where
  columns : List String
  initial_assignments : List (String × List String)
deriving DecidableEq, Repr

/-- The four files loaded by validate_relationships. -/
structure RelData where
  stories : List StoryRef
  epics : List EpicRef
  sprints : List SprintRef
  board : BoardRef
deriving DecidableEq, Repr

/-- Environment of the validation service: per-file structural outcome, and
the outcome of the loads performed by validate_relationships. -/
structure ValidationEnv where
  files : String → FileResult
  relLoad : Except String RelData

/-- The keys of SCHEMA_MAP (src/core/schemas.py), in insertion order. -/
def SCHEMA_MAP_keys : List String :=
  ["epics.json", "stories.json", "sprints.json", "scrum_board.json",
   "views.json", "project_meta.json", "project_plan.json"]

/-- ValidationService.validate_file: no schema means failure; a missing file
and malformed JSON are failures with the corresponding message; otherwise the
file is valid exactly when the schema validator yields no errors. -/
def validate_file (env : ValidationEnv) (filename : String) :
    Bool × List String :=
  if filename ∈ SCHEMA_MAP_keys then
    match env.files filename with
    | .missing => (false, ["File not found: " ++ filename])
    | .malformed msg => (false, ["Invalid JSON in " ++ filename ++ ": " ++ msg])
    | .parsed errs => if errs = [] then (true, []) else (false, errs)
  else (false, ["No schema defined for " ++ filename])

/-- Per-file entry of the validate_all_files results dict. -/
structure FileValidation where
  filename : String
  valid : Bool
  errors : List String
deriving DecidableEq, Repr

/-- ValidationService.validate_all_files: every file of SCHEMA_MAP is checked
independently and its result recorded; the overall flag is the conjunction. -/
def validate_all_files (env : ValidationEnv) : Bool × List FileValidation :=
  let results := SCHEMA_MAP_keys.map (fun f =>
    { filename := f
    , valid := (validate_file env f).1
    , errors := (validate_file env f).2 : FileValidation })
  (results.all (fun r => r.valid), results)

/-- First relationship check: every story id referenced by an epic exists in
the story id set; one error message per dangling reference, in source order. -/
def epicStoryErrors (stories : List StoryRef) (epics : List EpicRef) : List String :=
  (epics.map (fun epic =>
    (epic.stories.filter (fun sid => !(stories.map StoryRef.id).contains sid)).map
      (fun sid => "Epic " ++ epic.id ++ " references non-existent story " ++ sid))).flatten

/-- Second relationship check: the epic_id of every story is looked up in the
epic id set unconditionally — an empty epic_id is looked up like any other
value. -/
def storyEpicErrors (stories : List StoryRef) (epics : List EpicRef) : List String :=
  (stories.filter (fun story =>
    !(epics.map EpicRef.id).contains story.epic_id)).map (fun story =>
    "Story " ++ story.id ++ " references non-existent epic " ++ story.epic_id)

/-- Third relationship check: every story id referenced by a sprint exists. -/
def sprintStoryErrors (stories : List StoryRef) (sprints : List SprintRef) : List String :=
  (sprints.map (fun sprint =>
    (sprint.stories.filter (fun sid => !(stories.map StoryRef.id).contains sid)).map
      (fun sid => "Sprint " ++ sprint.name ++ " references non-existent story " ++ sid))).flatten

/-- Fourth relationship check: every initial-assignment column is declared and
every story id it assigns exists. -/
def boardErrors (stories : List StoryRef) (board : BoardRef) : List String :=
  (board.initial_assignments.map (fun ca =>
    (if board.columns.contains ca.1 then []
     else ["Board initial assignment references non-existent column " ++ ca.1])
    ++ (ca.2.filter (fun sid => !(stories.map StoryRef.id).contains sid)).map
      (fun sid => "Board initial assignment for column " ++ ca.1 ++
        " references non-existent story " ++ sid))).flatten

/-- The error_messages list of validate_relationships: the four checks
accumulate independently, appended in source order. -/
def relationshipErrors (stories : List StoryRef) (epics : List EpicRef)
    (sprints : List SprintRef) (board : BoardRef) : List String :=
  epicStoryErrors stories epics ++ storyEpicErrors stories epics
    ++ sprintStoryErrors stories sprints ++ boardErrors stories board

/-- Body of ValidationService.validate_relationships after the four loads:
success is the emptiness of the accumulated error messages. -/
def validate_relationships_data (stories : List StoryRef) (epics : List EpicRef)
    (sprints : List SprintRef) (board : BoardRef) : Bool × List String :=
  ((relationshipErrors stories epics sprints board).isEmpty,
   relationshipErrors stories epics sprints board)

/-- ValidationService.validate_relationships: load the four files (a caught
load exception yields the single wrapped error message) then run the checks. -/
def validate_relationships (env : ValidationEnv) : Bool × List String :=
  match env.relLoad with
  | .ok d => validate_relationships_data d.stories d.epics d.sprints d.board
  | .error e => (false, ["Error validating relationships: " ++ e])

/-- The dict returned by ValidationService.validate_all. -/
structure ValidateAllResult where
  valid : Bool
  schema_valid : Bool
  schema_results : List FileValidation
  relationship_valid : Bool
  relationship_errors : List String
deriving DecidableEq, Repr

/-- ValidationService.validate_all: structural phase first; the relationship
phase runs only when the structural phase is valid, its results otherwise
staying at the defaults false and []; overall valid is the conjunction. -/
def validate_all (env : ValidationEnv) : ValidateAllResult :=
  let sv := validate_all_files env
  let rel := if sv.1 then validate_relationships env else (false, [])
  { valid := sv.1 && rel.1
  , schema_valid := sv.1
  , schema_results := sv.2
  , relationship_valid := rel.1
  , relationship_errors := rel.2 }

/-
Concrete fixtures used by counterexamples and witnesses.
-/

/-- A story with no epic and no tags. -/
def storyS1 : Story :=
  { id := "S1", summary := "First story", description := "d1", epic_id := ""
  , story_points := 3, labels := [], status := "To Do" }

/-- A second story whose summary matches the remote issue number 7. -/
def storyS2 : Story :=
  { id := "S2", summary := "Second story", description := "d2", epic_id := ""
  , story_points := 0, labels := [], status := "To Do" }

/-- A remote issue matching storyS2 by title only. -/
def issue7 : Issue :=
  { number := 7, title := "Second story", labels := [], body := "" }

/-- Environment where the remote issue list holds only issue7 and every
create_issue call raises. -/
def envCreateFails : ClientEnv :=
  { repo := "octo/repo"
  , listIssuesResult := .ok [issue7]
  , createIssueResult := fun _ _ _ => .error "boom"
  , createLabelResult := fun _ _ _ => .ok ()
  , listProjectsResult := fun _ => .ok []
  , createProjectResult := fun _ _ => .error "down"
  , addIssueToProjectResult := fun _ _ _ => .ok () }

/-
Theorems for the claims.
-/

/-- Claim C1: the spec states created + existing + failed = total for every
run of sync_stories_to_issues.  The code violates it on both inputs the claim
singles out: with one story whose remote creation raises (the exception is
caught inside create_or_update_issue, which returns (none, false), a result
the aggregation loop appends to no list), the summary counts 0 + 0 + 0 against
total 1; and with one genuinely new story under dry_run (result (none, true),
also appended to no list) the summary again counts 0 + 0 + 0 against total 1.
Only the empty-input case of the claim holds. -/
theorem sync_counts_drop_silent_failures :
    ((sync_stories_to_issues envCreateFails [storyS1] [] false).1.created +
       (sync_stories_to_issues envCreateFails [storyS1] [] false).1.existing +
       (sync_stories_to_issues envCreateFails [storyS1] [] false).1.failed = 0
     ∧ (sync_stories_to_issues envCreateFails [storyS1] [] false).1.total = 1)
    ∧ ((sync_stories_to_issues envCreateFails [storyS1] [] true).1.created +
       (sync_stories_to_issues envCreateFails [storyS1] [] true).1.existing +
       (sync_stories_to_issues envCreateFails [storyS1] [] true).1.failed = 0
     ∧ (sync_stories_to_issues envCreateFails [storyS1] [] true).1.total = 1)
    ∧ (sync_stories_to_issues envCreateFails [] [] false).1
        = { created := 0, existing := 0, failed := 0, total := 0
          , created_issues := [], existing_issues := [], failed_issues := []
          , dry_run := false } := by
  refine ⟨⟨?_, rfl⟩, ⟨?_, rfl⟩, rfl⟩ <;> rfl

/-- Claim C2: the spec states a story whose remote create_issue call raises is
recorded in failed_issues with its error while the remaining stories are still
processed.  In the code the exception is caught inside create_or_update_issue
and the resulting (none, false) matches no branch of the aggregation loop, so
failed_issues stays empty: syncing storyS1 (whose creation raises "boom") and
storyS2 (found remotely by title) yields failed_issues = [] and failed = 0 —
the failure is dropped — although the create was attempted (its call is in the
trace) and storyS2 was indeed still processed into existing_issues. -/
theorem sync_failed_create_not_recorded :
    (sync_stories_to_issues envCreateFails [storyS1, storyS2] [] false).1.failed_issues
        = []
    ∧ (sync_stories_to_issues envCreateFails [storyS1, storyS2] [] false).1.failed = 0
    ∧ (envCreateFails.createIssueResult (story_to_issue_payload storyS1 none).title
        (story_to_issue_payload storyS1 none).body
        (story_to_issue_payload storyS1 none).labels = .error "boom")
    ∧ TrackerCall.createIssue "First story"
        ∈ (sync_stories_to_issues envCreateFails [storyS1, storyS2] [] false).2
    ∧ (sync_stories_to_issues envCreateFails [storyS1, storyS2] [] false).1.existing_issues
        = [{ story_id := "S2", issue_number := 7, title := "Second story" }] := by
  refine ⟨rfl, rfl, rfl, ?_, rfl⟩
  decide

/-- Helper: find? returns the first element satisfying the predicate when all
elements before it fail it. -/
theorem find?_append_first {α : Type} (p : α → Bool) (pre post : List α)
    (i : α) (hi : p i = true) (hpre : ∀ j ∈ pre, p j = false) :
    (pre ++ i :: post).find? p = some i := by
  induction pre with
  | nil => simp [List.find?_cons, hi]
  | cons a pre ih =>
      have ha : p a = false := hpre a (List.mem_cons_self a pre)
      simp only [List.cons_append, List.find?_cons, ha]
      exact ih (fun j hj => hpre j (List.mem_cons_of_mem a hj))

/-- Claim C3: issue discovery is two-stage in this exact order: the whole
issue list is scanned for an issue whose labels contain the story id and the
first such issue is returned; only when no issue carries the id label is the
list scanned again for an issue whose title equals the story summary; when
neither stage matches, discovery returns none and the story is treated as new
(create_or_update_issue reports a would-be creation). -/
theorem find_existing_issue_two_stage
    (env : ClientEnv) (story : Story) (issues pre post : List Issue) (i : Issue)
    (hlist : env.listIssuesResult = .ok issues) :
    (issues = pre ++ i :: post → i.labels.contains story.id = true →
       (∀ j ∈ pre, j.labels.contains story.id = false) →
       (find_existing_issue env story).1 = .ok (some i))
    ∧ (issues = pre ++ i :: post →
       (∀ j ∈ issues, j.labels.contains story.id = false) →
       i.title = story.summary →
       (∀ j ∈ pre, j.title ≠ story.summary) →
       (find_existing_issue env story).1 = .ok (some i))
    ∧ ((∀ j ∈ issues, j.labels.contains story.id = false) →
       (∀ j ∈ issues, j.title ≠ story.summary) →
       (find_existing_issue env story).1 = .ok none
       ∧ ∀ epic, (create_or_update_issue env story epic true).1 = .ok (none, true)) := by
  refine ⟨?_, ?_, ?_⟩
  · intro hsplit hi hpre
    have h1 : issues.find? (fun issue => issue.labels.contains story.id) = some i := by
      rw [hsplit]; exact find?_append_first _ _ _ _ hi hpre
    simp only [find_existing_issue, hlist, h1]
  · intro hsplit hnolabel htitle hpre
    have h1 : issues.find? (fun issue => issue.labels.contains story.id) = none :=
      List.find?_eq_none.mpr (fun x hx => by simpa using hnolabel x hx)
    have h2 : issues.find? (fun issue => issue.title == story.summary) = some i := by
      rw [hsplit]
      refine find?_append_first _ _ _ _ ?_ ?_
      · exact beq_iff_eq.mpr htitle
      · exact fun j hj => beq_eq_false_iff_ne.mpr (hpre j hj)
    simp only [find_existing_issue, hlist, h1, h2]
  · intro hnolabel hnotitle
    have h1 : issues.find? (fun issue => issue.labels.contains story.id) = none :=
      List.find?_eq_none.mpr (fun x hx => by simpa using hnolabel x hx)
    have h2 : issues.find? (fun issue => issue.title == story.summary) = none :=
      List.find?_eq_none.mpr (fun x hx => by simpa using hnotitle x hx)
    have hf : find_existing_issue env story = (.ok none, [.listIssues]) := by
      simp only [find_existing_issue, hlist, h1, h2]
    exact ⟨by rw [hf], fun epic => by simp [create_or_update_issue, hf]⟩

/-- A remote issue with an unrelated id label. -/
def issueA : Issue :=
  { number := 1, title := "T A", labels := ["S9"], body := "" }

/-- A remote issue whose title matches storyS1 but carries no id label. -/
def issueB : Issue :=
  { number := 2, title := "First story", labels := [], body := "" }

/-- A remote issue carrying the id label of storyS1 under another title. -/
def issueC : Issue :=
  { number := 3, title := "Renamed", labels := ["S1"], body := "" }

/-- Environment whose issue list is the given one. -/
def envIssues (l : List Issue) : ClientEnv :=
  { envCreateFails with listIssuesResult := .ok l }

/-- Witness for claim C3: with issueC carrying the id label after issueB,
which matches by title only, the id-label stage wins; without issueC the title
stage matches issueB; with only issueA neither stage matches and the story is
reported as a would-be creation. -/
theorem find_existing_issue_two_stage_witness :
    (find_existing_issue (envIssues [issueA, issueB, issueC]) storyS1).1
        = .ok (some issueC)
    ∧ (find_existing_issue (envIssues [issueA, issueB]) storyS1).1
        = .ok (some issueB)
    ∧ (find_existing_issue (envIssues [issueA]) storyS1).1 = .ok none
    ∧ (create_or_update_issue (envIssues [issueA]) storyS1 none true).1
        = .ok (none, true) :=
  ⟨(find_existing_issue_two_stage (envIssues [issueA, issueB, issueC]) storyS1
      _ [issueA, issueB] [] issueC rfl).1 rfl (by decide) (by decide),
   (find_existing_issue_two_stage (envIssues [issueA, issueB]) storyS1
      _ [issueA] [] issueB rfl).2.1 rfl (by decide) rfl (by decide),
   ((find_existing_issue_two_stage (envIssues [issueA]) storyS1
      _ [] [] issueA rfl).2.2 (by decide) (by decide)).1,
   ((find_existing_issue_two_stage (envIssues [issueA]) storyS1
      _ [] [] issueA rfl).2.2 (by decide) (by decide)).2 none⟩

/-- Helper: discovery always performs exactly the one read-only listIssues
call, whatever its outcome. -/
theorem find_existing_issue_trace (env : ClientEnv) (story : Story) :
    (find_existing_issue env story).2 = [.listIssues] := by
  unfold find_existing_issue
  cases h : env.listIssuesResult with
  | error e => simp only [h]
  | ok issues =>
      simp only [h]
      cases issues.find? (fun issue => issue.labels.contains story.id) <;> rfl

/-- Helper: under dry_run, create_or_update_issue is discovery alone — its
trace is the single listIssues call and its result mirrors discovery, an
existing issue with is_new false and none with is_new true. -/
theorem create_or_update_issue_dry (env : ClientEnv) (story : Story)
    (epic : Option Epic) :
    create_or_update_issue env story epic true
      = ((find_existing_issue env story).1.map (fun found => (found, found.isNone)),
         [.listIssues]) := by
  have ht := find_existing_issue_trace env story
  unfold create_or_update_issue
  rcases hf : find_existing_issue env story with ⟨res, t⟩
  rw [hf] at ht
  simp only at ht
  subst ht
  rcases res with e | oi
  · rfl
  · rcases oi with _ | issue <;> rfl

/-- Helper: the trace of the dry-run sync loop is one listIssues call per
story and nothing else. -/
theorem syncLoop_trace_dry (env : ClientEnv) (epics : List Epic) :
    ∀ stories : List Story,
      (syncLoop env epics true stories).2.2.2
        = stories.map (fun _ => TrackerCall.listIssues) := by
  intro stories
  induction stories with
  | nil => rfl
  | cons s rest ih =>
      simp only [syncLoop, create_or_update_issue_dry, List.map_cons]
      cases hr : (find_existing_issue env s).1 with
      | error e => simp [hr, Except.map, ih]
      | ok oi => cases oi <;> simp [hr, Except.map, ih]

/-- Helper: under dry_run, create_project is discovery alone: one read-only
listProjects call, an existing project returned with is_new false, otherwise
(none, true). -/
theorem create_project_dry (env : ClientEnv) (pname : String)
    (owner : Option String) :
    create_project env pname owner true
      = (((find_existing_project env pname (owner.getD (repoOwner env))).1,
          ((find_existing_project env pname (owner.getD (repoOwner env))).1).isNone),
         [.listProjects (owner.getD (repoOwner env))]) := by
  unfold create_project find_existing_project
  dsimp only
  cases h : env.listProjectsResult (owner.getD (repoOwner env)) with
  | error e => simp only [h]; rfl
  | ok projects =>
      simp only [h]
      cases projects.find? (fun p => p.title == some pname || p.pname == some pname) <;> rfl

/-- Helper: the full behaviour of create_board_from_model under dry_run: the
one read-only listProjects call, a success summary with zero added and failed
links and empty detail lists, is_new reflecting whether discovery found a
project matching the board name. -/
theorem create_board_from_model_dry_eq (env : ClientEnv) (board : Board)
    (issues_map : List (String × Nat)) :
    create_board_from_model env board issues_map true
      = (.summary
          { success := true
          , project_name := board.name
          , project_number :=
              ((find_existing_project env board.name (repoOwner env)).1).map
                Project.number
          , is_new := ((find_existing_project env board.name (repoOwner env)).1).isNone
          , added_issues := 0
          , failed_issues := 0
          , added_issues_details := []
          , failed_issues_details := []
          , dry_run := true },
         [.listProjects (repoOwner env)]) := by
  unfold create_board_from_model
  rw [create_project_dry]
  simp only [Option.getD_none]
  cases (find_existing_project env board.name (repoOwner env)).1 <;> rfl

/-- Claim C4: under dry_run no mutating tracker operation is invoked anywhere:
the whole trace of a dry-run sync_stories_to_issues is exactly one read-only
listIssues call per story (no label or issue writes), the whole trace of a
dry-run create_board_from_model is exactly the one read-only listProjects
call, and dry-run create_or_update_issue still returns an already-existing
issue with is_new false and (none, true) for a genuinely new story. -/
theorem dry_run_never_mutates (env : ClientEnv) (stories : List Story)
    (epics : List Epic) (board : Board) (issues_map : List (String × Nat))
    (story : Story) (epic : Option Epic) :
    (sync_stories_to_issues env stories epics true).2
        = stories.map (fun _ => TrackerCall.listIssues)
    ∧ (create_board_from_model env board issues_map true).2
        = [.listProjects (repoOwner env)]
    ∧ (create_or_update_issue env story epic true).1
        = ((find_existing_issue env story).1).map (fun found => (found, found.isNone)) := by
  refine ⟨?_, ?_, ?_⟩
  · show (if true then [] else (ensure_labels_exist env stories epics).2)
        ++ (syncLoop env epics true stories).2.2.2 = _
    rw [syncLoop_trace_dry]
    rfl
  · rw [create_board_from_model_dry_eq]
  · rw [create_or_update_issue_dry]

/-- Claim C10: create_board_from_model under dry_run returns a summary with
success true, zero added and failed counts and empty detail lists, for every
board and issues_map — its only call is the read-only project discovery, so no
item linking is attempted even when a matching project exists and issues_map
is non-empty. -/
theorem create_board_from_model_dry_zero (env : ClientEnv) (board : Board)
    (issues_map : List (String × Nat)) :
    create_board_from_model env board issues_map true
      = (.summary
          { success := true
          , project_name := board.name
          , project_number :=
              ((find_existing_project env board.name (repoOwner env)).1).map
                Project.number
          , is_new := ((find_existing_project env board.name (repoOwner env)).1).isNone
          , added_issues := 0
          , failed_issues := 0
          , added_issues_details := []
          , failed_issues_details := []
          , dry_run := true },
         [.listProjects (repoOwner env)]) :=
  create_board_from_model_dry_eq env board issues_map

/-- Claim C9: when the remote list_projects call raises, find_existing_project
catches the exception and returns none as if no project existed, so
create_project goes on to attempt the creation — its trace holds the
createProject call after the failed discovery and its result mirrors the
create_project client outcome. -/
theorem list_projects_error_treated_as_absent (env : ClientEnv)
    (pname : String) (e : String)
    (h : env.listProjectsResult (repoOwner env) = .error e) :
    find_existing_project env pname (repoOwner env)
        = (none, [.listProjects (repoOwner env)])
    ∧ (create_project env pname none false).2
        = [.listProjects (repoOwner env), .createProject pname]
    ∧ (create_project env pname none false).1
        = (match env.createProjectResult pname (repoOwner env) with
           | .ok p => (some p, true)
           | .error _ => (none, false)) := by
  have hfind : find_existing_project env pname (repoOwner env)
      = (none, [.listProjects (repoOwner env)]) := by
    unfold find_existing_project
    simp only [h]
  have hc : create_project env pname none false
      = ((match env.createProjectResult pname (repoOwner env) with
          | .ok p => (some p, true)
          | .error _ => (none, false)),
         [.listProjects (repoOwner env), .createProject pname]) := by
    unfold create_project
    dsimp only
    simp only [Option.getD_none]
    rw [hfind]
    cases h2 : env.createProjectResult pname (repoOwner env) <;> simp only [h2] <;> rfl
  exact ⟨hfind, by rw [hc], by rw [hc]⟩

/-- A project record returned by the creation call in the C9 witness. -/
def projX : Project :=
  { number := 42, title := some "Roadmap", pname := none }

/-- Environment whose project listing raises while project creation works. -/
def envProjectsDown : ClientEnv :=
  { envCreateFails with
    listProjectsResult := fun _ => .error "offline"
  , createProjectResult := fun _ _ => .ok projX }

/-- Witness for claim C9: with the listing raising "offline", discovery yields
none and create_project attempts and performs the creation. -/
theorem list_projects_error_treated_as_absent_witness :
    (create_project envProjectsDown "Roadmap" none false).1 = (some projX, true)
    ∧ (create_project envProjectsDown "Roadmap" none false).2
        = [.listProjects (repoOwner envProjectsDown), .createProject "Roadmap"]
    ∧ (find_existing_project envProjectsDown "Roadmap"
        (repoOwner envProjectsDown)).1 = none :=
  ⟨by rw [(list_projects_error_treated_as_absent envProjectsDown "Roadmap"
        "offline" rfl).2.2]; rfl,
   (list_projects_error_treated_as_absent envProjectsDown "Roadmap"
        "offline" rfl).2.1,
   by rw [(list_projects_error_treated_as_absent envProjectsDown "Roadmap"
        "offline" rfl).1]⟩

/-- Claim C6: every file of the schema map is checked independently and its
result recorded (missing file and malformed JSON being per-file structural
failures with their messages); the relationship phase result is that of
validate_relationships exactly when the structural phase passed and stays at
the defaults false and empty otherwise; the overall valid flag is the
conjunction of the two phase flags. -/
theorem validate_all_two_phase (env : ValidationEnv) (f m : String) :
    (∀ fn ∈ SCHEMA_MAP_keys,
       ({ filename := fn
        , valid := (validate_file env fn).1
        , errors := (validate_file env fn).2 } : FileValidation)
         ∈ (validate_all_files env).2)
    ∧ (env.files f = .missing → f ∈ SCHEMA_MAP_keys →
        validate_file env f = (false, ["File not found: " ++ f]))
    ∧ (env.files f = .malformed m → f ∈ SCHEMA_MAP_keys →
        validate_file env f = (false, ["Invalid JSON in " ++ f ++ ": " ++ m]))
    ∧ ((validate_all_files env).1 = true →
        (validate_all env).relationship_valid = (validate_relationships env).1
        ∧ (validate_all env).relationship_errors = (validate_relationships env).2)
    ∧ ((validate_all_files env).1 = false →
        (validate_all env).relationship_valid = false
        ∧ (validate_all env).relationship_errors = [])
    ∧ (validate_all env).valid
        = ((validate_all_files env).1 && (validate_all env).relationship_valid) := by
  refine ⟨?_, ?_, ?_, ?_, ?_, ?_⟩
  · intro fn hfn
    exact List.mem_map.mpr ⟨fn, hfn, rfl⟩
  · intro hmiss hmem
    simp [validate_file, hmem, hmiss]
  · intro hmal hmem
    simp [validate_file, hmem, hmal]
  · intro h
    unfold validate_all
    simp only [h]
    exact ⟨rfl, rfl⟩
  · intro h
    unfold validate_all
    simp only [h]
    exact ⟨rfl, rfl⟩
  · cases h : (validate_all_files env).1 <;> simp [validate_all, h]

/-- Fully consistent relationship data used by witnesses. -/
def relDataOk : RelData :=
  { stories := [{ id := "S1", epic_id := "E1" }]
  , epics := [{ id := "E1", stories := ["S1"] }]
  , sprints := [{ name := "Sprint 1", stories := ["S1"] }]
  , board := { columns := ["Todo"], initial_assignments := [("Todo", ["S1"])] } }

/-- Validation environment where every file parses cleanly. -/
def vEnvAllOk : ValidationEnv :=
  { files := fun _ => .parsed [], relLoad := .ok relDataOk }

/-- Validation environment with one missing and one malformed file. -/
def vEnvBroken : ValidationEnv :=
  { files := fun fn =>
      if fn = "stories.json" then .missing
      else if fn = "epics.json" then .malformed "bad token"
      else .parsed []
  , relLoad := .error "File not found: stories.json" }

/-- Witness for claim C6: per-file failures are recorded with their messages,
the relationship phase runs on the clean environment and is skipped (defaults
false and empty) on the broken one, and the valid flag is the conjunction. -/
theorem validate_all_two_phase_witness :
    validate_file vEnvBroken "stories.json"
        = (false, ["File not found: stories.json"])
    ∧ validate_file vEnvBroken "epics.json"
        = (false, ["Invalid JSON in epics.json: bad token"])
    ∧ ({ filename := "stories.json"
       , valid := (validate_file vEnvBroken "stories.json").1
       , errors := (validate_file vEnvBroken "stories.json").2 } : FileValidation)
        ∈ (validate_all_files vEnvBroken).2
    ∧ (validate_all vEnvAllOk).relationship_valid
        = (validate_relationships vEnvAllOk).1
    ∧ (validate_all vEnvBroken).relationship_valid = false
    ∧ (validate_all vEnvBroken).relationship_errors = []
    ∧ (validate_all vEnvAllOk).valid
        = ((validate_all_files vEnvAllOk).1
            && (validate_all vEnvAllOk).relationship_valid) :=
  ⟨(validate_all_two_phase vEnvBroken "stories.json" "m").2.1 rfl (by decide),
   (validate_all_two_phase vEnvBroken "epics.json" "bad token").2.2.1 rfl (by decide),
   (validate_all_two_phase vEnvBroken "f" "m").1 "stories.json" (by decide),
   ((validate_all_two_phase vEnvAllOk "f" "m").2.2.2.1 (by decide)).1,
   ((validate_all_two_phase vEnvBroken "f" "m").2.2.2.2.1 (by decide)).1,
   ((validate_all_two_phase vEnvBroken "f" "m").2.2.2.2.1 (by decide)).2,
   (validate_all_two_phase vEnvAllOk "f" "m").2.2.2.2.2⟩

/-- A story whose epic_id is the empty string, meaning no epic. -/
def cexStories : List StoryRef := [{ id := "S1", epic_id := "" }]

/-- An epic owning the one story, so the data is fully consistent in the
sense of the spec (the empty epic_id meaning no epic). -/
def cexEpics : List EpicRef := [{ id := "E1", stories := ["S1"] }]

/-- An empty board. -/
def cexBoard : BoardRef := { columns := [], initial_assignments := [] }

/-- Validation environment loading the counterexample data. -/
def cexRelEnv : ValidationEnv :=
  { files := fun _ => .parsed []
  , relLoad := .ok
      { stories := cexStories, epics := cexEpics, sprints := [], board := cexBoard } }

/-- Counterexample for claim C5: the claim states no epic_id error is reported
for a story whose epic_id is empty and that fully consistent data yields
valid true with no errors, but on a data set whose only story has an empty
epic_id (and one epic owning it) validate_relationships returns valid false
with exactly the epic_id error for that story — the code looks the empty
epic_id up in the epic id set like any other value. -/
theorem validate_relationships_empty_epic_id_cex :
    validate_relationships cexRelEnv
        = (false, ["Story S1 references non-existent epic "])
    ∧ validate_relationships_data cexStories cexEpics [] cexBoard
        = (false, ["Story S1 references non-existent epic "]) :=
  ⟨rfl, rfl⟩

/-- Claim C5 as amended: validate_relationships reports the error naming the
story id and the referenced epic id for every story whose epic_id — the empty
string included — is not the id of an existing epic, with valid false; it
returns valid true with no errors on data where every epic, sprint and board
reference resolves and every story epic_id (none exempt) is an existing epic
id. -/
theorem validate_relationships_epic_check (stories : List StoryRef)
    (epics : List EpicRef) (sprints : List SprintRef) (board : BoardRef)
    (story : StoryRef) :
    (story ∈ stories → story.epic_id ∉ epics.map EpicRef.id →
       ("Story " ++ story.id ++ " references non-existent epic " ++ story.epic_id)
           ∈ (validate_relationships_data stories epics sprints board).2
       ∧ (validate_relationships_data stories epics sprints board).1 = false)
    ∧ ((∀ e ∈ epics, ∀ sid ∈ e.stories, sid ∈ stories.map StoryRef.id) →
       (∀ st ∈ stories, st.epic_id ∈ epics.map EpicRef.id) →
       (∀ sp ∈ sprints, ∀ sid ∈ sp.stories, sid ∈ stories.map StoryRef.id) →
       (∀ ca ∈ board.initial_assignments, ca.1 ∈ board.columns
          ∧ ∀ sid ∈ ca.2, sid ∈ stories.map StoryRef.id) →
       validate_relationships_data stories epics sprints board = (true, []))
    ∧ (∀ env : ValidationEnv,
        env.relLoad = .ok { stories := stories, epics := epics
                          , sprints := sprints, board := board } →
        validate_relationships env
          = validate_relationships_data stories epics sprints board) := by
  refine ⟨?_, ?_, ?_⟩
  · intro hmem hnot
    have h2 : ("Story " ++ story.id ++ " references non-existent epic "
          ++ story.epic_id) ∈ storyEpicErrors stories epics := by
      refine List.mem_map.mpr ⟨story, List.mem_filter.mpr ⟨hmem, ?_⟩, rfl⟩
      simp [hnot]
    have hall : ("Story " ++ story.id ++ " references non-existent epic "
          ++ story.epic_id) ∈ relationshipErrors stories epics sprints board :=
      List.mem_append_left _ (List.mem_append_left _ (List.mem_append_right _ h2))
    refine ⟨hall, ?_⟩
    show (relationshipErrors stories epics sprints board).isEmpty = false
    rw [List.isEmpty_eq_false]
    exact List.ne_nil_of_mem hall
  · intro h1 h2 h3 h4
    have he1 : epicStoryErrors stories epics = [] := by
      refine List.flatten_eq_nil_iff.mpr ?_
      intro x hx
      rcases List.mem_map.mp hx with ⟨epic, hepic, rfl⟩
      rw [List.filter_eq_nil_iff.mpr (fun sid hs => by simp [h1 epic hepic sid hs])]
      rfl
    have he2 : storyEpicErrors stories epics = [] := by
      rw [storyEpicErrors,
        List.filter_eq_nil_iff.mpr (fun st hs => by simp [h2 st hs])]
      rfl
    have he3 : sprintStoryErrors stories sprints = [] := by
      refine List.flatten_eq_nil_iff.mpr ?_
      intro x hx
      rcases List.mem_map.mp hx with ⟨sp, hsp, rfl⟩
      rw [List.filter_eq_nil_iff.mpr (fun sid hs => by simp [h3 sp hsp sid hs])]
      rfl
    have he4 : boardErrors stories board = [] := by
      refine List.flatten_eq_nil_iff.mpr ?_
      intro x hx
      rcases List.mem_map.mp hx with ⟨ca, hca, rfl⟩
      rw [List.filter_eq_nil_iff.mpr
          (fun sid hs => by simp [(h4 ca hca).2 sid hs])]
      have hcol : board.columns.contains ca.1 = true := by
        simp [(h4 ca hca).1]
      rw [hcol]
      rfl
    have hall : relationshipErrors stories epics sprints board = [] := by
      rw [relationshipErrors, he1, he2, he3, he4]
      rfl
    rw [validate_relationships_data, hall]
    rfl
  · intro env henv
    rw [validate_relationships, henv]

/-- A story referencing a missing non-empty epic id, for the C5 witness. -/
def cexStoriesDangling : List StoryRef := [{ id := "S7", epic_id := "EX" }]

/-- Witness for the amended claim C5: a story with a dangling non-empty
epic_id produces the error naming both ids with valid false; a story with an
empty epic_id produces the same kind of error (the amendment); fully
consistent data with every epic_id resolving yields valid true and no
errors. -/
theorem validate_relationships_epic_check_witness :
    ("Story S7 references non-existent epic EX"
        ∈ (validate_relationships_data cexStoriesDangling [] [] cexBoard).2
      ∧ (validate_relationships_data cexStoriesDangling [] [] cexBoard).1 = false)
    ∧ ("Story S1 references non-existent epic "
        ∈ (validate_relationships_data cexStories cexEpics [] cexBoard).2
      ∧ (validate_relationships_data cexStories cexEpics [] cexBoard).1 = false)
    ∧ validate_relationships_data relDataOk.stories relDataOk.epics
        relDataOk.sprints relDataOk.board = (true, [])
    ∧ validate_relationships vEnvAllOk
        = validate_relationships_data relDataOk.stories relDataOk.epics
            relDataOk.sprints relDataOk.board :=
  ⟨(validate_relationships_epic_check cexStoriesDangling [] [] cexBoard
      { id := "S7", epic_id := "EX" }).1 (by decide) (by decide),
   (validate_relationships_epic_check cexStories cexEpics [] cexBoard
      { id := "S1", epic_id := "" }).1 (by decide) (by decide),
   (validate_relationships_epic_check relDataOk.stories relDataOk.epics
      relDataOk.sprints relDataOk.board { id := "S1", epic_id := "E1" }).2.1
      (by decide) (by decide) (by decide) (by decide),
   (validate_relationships_epic_check relDataOk.stories relDataOk.epics
      relDataOk.sprints relDataOk.board { id := "S1", epic_id := "E1" }).2.2
      vEnvAllOk rfl⟩

/-- Number of (column, story) assignment pairs whose story id is present in
issues_map — the pairs the linking step attempts. -/
def inMapCount (issues_map : List (String × Nat))
    (assignments : List (String × List String)) : Nat :=
  (assignments.map (fun ca =>
    (ca.2.filter (fun sid => (issues_map.lookup sid).isSome)).length)).sum

/-- Helper: a story id absent from issues_map yields an entry in neither the
added nor the failed list of the inner linking loop. -/
theorem linkStories_skips_absent (env : ClientEnv) (pn : Nat)
    (issues_map : List (String × Nat)) (col absentId : String)
    (h : issues_map.lookup absentId = none) :
    ∀ sids : List String,
      (∀ item ∈ (linkStories env pn issues_map col false sids).1,
        item.story_id ≠ absentId)
      ∧ (∀ item ∈ (linkStories env pn issues_map col false sids).2.1,
        item.story_id ≠ absentId) := by
  intro sids
  induction sids with
  | nil => exact ⟨fun item hi => absurd hi (List.not_mem_nil item),
      fun item hi => absurd hi (List.not_mem_nil item)⟩
  | cons s rest ih =>
      simp only [linkStories]
      cases hl : issues_map.lookup s with
      | none => exact ih
      | some n =>
          have hs : s ≠ absentId := by
            intro hcontra
            rw [hcontra, h] at hl
            exact Option.noConfusion hl
          dsimp only
          rcases hr : add_issue_to_project env pn n none false with ⟨ok, tr⟩
          dsimp only
          cases ok
          · rw [if_neg Bool.false_ne_true]
            refine ⟨ih.1, fun item hi => ?_⟩
            rcases List.mem_cons.mp hi with rfl | hi2
            · exact hs
            · exact ih.2 item hi2
          · rw [if_pos rfl]
            refine ⟨fun item hi => ?_, ih.2⟩
            rcases List.mem_cons.mp hi with rfl | hi2
            · exact hs
            · exact ih.1 item hi2

/-- Helper: the inner linking loop produces exactly one entry, added or
failed, per story id present in issues_map — a failure never aborts the rest
of the column. -/
theorem linkStories_count (env : ClientEnv) (pn : Nat)
    (issues_map : List (String × Nat)) (col : String) :
    ∀ sids : List String,
      (linkStories env pn issues_map col false sids).1.length
        + (linkStories env pn issues_map col false sids).2.1.length
      = (sids.filter (fun sid => (issues_map.lookup sid).isSome)).length := by
  intro sids
  induction sids with
  | nil => rfl
  | cons s rest ih =>
      simp only [linkStories, List.filter_cons]
      cases hl : issues_map.lookup s with
      | none => simpa using ih
      | some n =>
          dsimp only
          rcases hr : add_issue_to_project env pn n none false with ⟨ok, tr⟩
          dsimp only
          cases ok
          · rw [if_neg Bool.false_ne_true]
            simp only [Option.isSome_some, if_true, List.length_cons]
            omega
          · rw [if_pos rfl]
            simp only [Option.isSome_some, if_true, List.length_cons]
            omega

/-- Helper: a story id in the column whose mapped issue fails to link is
recorded in the failed list of the inner loop. -/
theorem linkStories_records_failure (env : ClientEnv) (pn : Nat)
    (issues_map : List (String × Nat)) (col failId : String) (n : Nat)
    (e : String) (hn : issues_map.lookup failId = some n)
    (he : env.addIssueToProjectResult pn n (repoOwner env) = .error e) :
    ∀ sids : List String, failId ∈ sids →
      (⟨failId, n, col⟩ : LinkItem)
        ∈ (linkStories env pn issues_map col false sids).2.1 := by
  intro sids
  induction sids with
  | nil => intro hmem; exact absurd hmem (List.not_mem_nil failId)
  | cons s rest ih =>
      intro hmem
      simp only [linkStories]
      rcases List.mem_cons.mp hmem with rfl | hmem2
      · rw [hn]
        have hadd : add_issue_to_project env pn n none false
            = (false, [.addIssueToProject pn n]) := by
          unfold add_issue_to_project
          simp only [Option.getD_none, he]
          rfl
        dsimp only
        rw [hadd]
        dsimp only
        rw [if_neg Bool.false_ne_true]
        exact List.mem_cons_self _ _
      · cases hl : issues_map.lookup s with
        | none => exact ih hmem2
        | some m =>
            dsimp only
            rcases hr : add_issue_to_project env pn m none false with ⟨ok, tr⟩
            dsimp only
            cases ok
            · rw [if_neg Bool.false_ne_true]
              exact List.mem_cons_of_mem _ (ih hmem2)
            · rw [if_pos rfl]
              exact ih hmem2

/-- Helper: absent story ids appear in neither detail list of the outer
linking loop. -/
theorem linkAssignments_skips_absent (env : ClientEnv) (pn : Nat)
    (issues_map : List (String × Nat)) (absentId : String)
    (h : issues_map.lookup absentId = none) :
    ∀ assignments : List (String × List String),
      (∀ item ∈ (linkAssignments env pn issues_map false assignments).1,
        item.story_id ≠ absentId)
      ∧ (∀ item ∈ (linkAssignments env pn issues_map false assignments).2.1,
        item.story_id ≠ absentId) := by
  intro assignments
  induction assignments with
  | nil => exact ⟨fun item hi => absurd hi (List.not_mem_nil item),
      fun item hi => absurd hi (List.not_mem_nil item)⟩
  | cons ca rest ih =>
      rcases ca with ⟨col, sids⟩
      simp only [linkAssignments]
      constructor
      · intro item hi
        rcases List.mem_append.mp hi with h1 | h2
        · exact (linkStories_skips_absent env pn issues_map col absentId h sids).1
            item h1
        · exact ih.1 item h2
      · intro item hi
        rcases List.mem_append.mp hi with h1 | h2
        · exact (linkStories_skips_absent env pn issues_map col absentId h sids).2
            item h1
        · exact ih.2 item h2

/-- Helper: the outer linking loop produces exactly one entry per in-map
assignment pair across all columns. -/
theorem linkAssignments_count (env : ClientEnv) (pn : Nat)
    (issues_map : List (String × Nat)) :
    ∀ assignments : List (String × List String),
      (linkAssignments env pn issues_map false assignments).1.length
        + (linkAssignments env pn issues_map false assignments).2.1.length
      = inMapCount issues_map assignments := by
  intro assignments
  induction assignments with
  | nil => rfl
  | cons ca rest ih =>
      rcases ca with ⟨col, sids⟩
      simp only [linkAssignments, inMapCount, List.map_cons, List.sum_cons,
        List.length_append]
      rw [← linkStories_count env pn issues_map col sids]
      simp only [inMapCount] at ih
      rw [← ih]
      omega

/-- Helper: a failing in-map pair of some column is recorded in the failed
list of the outer loop. -/
theorem linkAssignments_records_failure (env : ClientEnv) (pn : Nat)
    (issues_map : List (String × Nat)) (col failId : String)
    (sids : List String) (n : Nat) (e : String)
    (hn : issues_map.lookup failId = some n)
    (he : env.addIssueToProjectResult pn n (repoOwner env) = .error e) :
    ∀ assignments : List (String × List String),
      (col, sids) ∈ assignments → failId ∈ sids →
      (⟨failId, n, col⟩ : LinkItem)
        ∈ (linkAssignments env pn issues_map false assignments).2.1 := by
  intro assignments
  induction assignments with
  | nil => intro hmem _; exact absurd hmem (List.not_mem_nil (col, sids))
  | cons ca rest ih =>
      intro hmem hfid
      rcases ca with ⟨c, ss⟩
      simp only [linkAssignments]
      rcases List.mem_cons.mp hmem with heq | hmem2
      · obtain ⟨hc, hss⟩ : c = col ∧ ss = sids :=
          ⟨congrArg Prod.fst heq.symm, congrArg Prod.snd heq.symm⟩
        subst hc
        subst hss
        exact List.mem_append_left _
          (linkStories_records_failure env pn issues_map _ failId n e hn he _ hfid)
      · exact List.mem_append_right _ (ih hmem2 hfid)

/-- Claim C7: when create_board_from_model links items (dry_run false, project
resolved), a story id absent from issues_map appears in neither the added nor
the failed detail list of the summary; added and failed together account for
exactly every in-map assignment pair, so one link failure aborts none of the
remaining links; and an in-map pair whose add-issue call raises is recorded
in the failed detail list. -/
theorem create_board_from_model_link_accounting (env : ClientEnv)
    (board : Board) (issues_map : List (String × Nat)) (p : Project)
    (isnew : Bool) (s : BoardSummary) (t : List TrackerCall)
    (absentId col failId : String) (sids : List String) (n : Nat) (e : String)
    (hp : (create_project env board.name none false).1 = (some p, isnew))
    (hs : create_board_from_model env board issues_map false = (.summary s, t)) :
    (issues_map.lookup absentId = none →
        (∀ item ∈ s.added_issues_details, item.story_id ≠ absentId)
        ∧ (∀ item ∈ s.failed_issues_details, item.story_id ≠ absentId))
    ∧ s.added_issues + s.failed_issues
        = inMapCount issues_map board.initial_assignments
    ∧ ((col, sids) ∈ board.initial_assignments → failId ∈ sids →
        issues_map.lookup failId = some n →
        env.addIssueToProjectResult p.number n (repoOwner env) = .error e →
        (⟨failId, n, col⟩ : LinkItem) ∈ s.failed_issues_details) := by
  rcases hcp : create_project env board.name none false with ⟨pr, t1⟩
  rw [hcp] at hp
  simp only at hp
  subst hp
  have hb : create_board_from_model env board issues_map false
      = (.summary
          { success := true
          , project_name := board.name
          , project_number := some p.number
          , is_new := isnew
          , added_issues :=
              (linkAssignments env p.number issues_map false
                board.initial_assignments).1.length
          , failed_issues :=
              (linkAssignments env p.number issues_map false
                board.initial_assignments).2.1.length
          , added_issues_details :=
              (linkAssignments env p.number issues_map false
                board.initial_assignments).1
          , failed_issues_details :=
              (linkAssignments env p.number issues_map false
                board.initial_assignments).2.1
          , dry_run := false },
         t1 ++ (linkAssignments env p.number issues_map false
                board.initial_assignments).2.2) := by
    unfold create_board_from_model
    rw [hcp]
    rfl
  rw [hb] at hs
  have hsum := congrArg Prod.fst hs
  simp only at hsum
  injection hsum with hseq
  subst hseq
  refine ⟨?_, ?_, ?_⟩
  · intro habs
    exact linkAssignments_skips_absent env p.number issues_map absentId habs
      board.initial_assignments
  · exact linkAssignments_count env p.number issues_map board.initial_assignments
  · intro hmem hfid hn he
    exact linkAssignments_records_failure env p.number issues_map col failId
      sids n e hn he board.initial_assignments hmem hfid

/-- Remote project matching the witness board by title. -/
def projBoard : Project :=
  { number := 9, title := some "Sprint Board", pname := none }

/-- Environment for the C7 witness: the project listing returns projBoard and
adding issue 5 to a project raises while other adds succeed. -/
def envLink : ClientEnv :=
  { repo := "octo/repo"
  , listIssuesResult := .ok []
  , createIssueResult := fun _ _ _ => .error "boom"
  , createLabelResult := fun _ _ _ => .ok ()
  , listProjectsResult := fun _ => .ok [projBoard]
  , createProjectResult := fun _ _ => .error "down"
  , addIssueToProjectResult := fun _ i _ =>
      if i = 5 then .error "link down" else .ok () }

/-- Witness board: two columns assigning S1 and S2 to Todo and S3 to Doing. -/
def boardFix : Board :=
  { name := "Sprint Board", type := "scrum", columns := ["Todo", "Doing"]
  , initial_assignments := [("Todo", ["S1", "S2"]), ("Doing", ["S3"])] }

/-- Witness issues_map: S1 and S3 have issues, S2 does not. -/
def imapFix : List (String × Nat) := [("S1", 4), ("S3", 5)]

/-- The summary create_board_from_model produces on the witness input. -/
def sFix : BoardSummary :=
  { success := true
  , project_name := "Sprint Board"
  , project_number := some 9
  , is_new := false
  , added_issues := 1
  , failed_issues := 1
  , added_issues_details := [{ story_id := "S1", issue_number := 4, column := "Todo" }]
  , failed_issues_details := [{ story_id := "S3", issue_number := 5, column := "Doing" }]
  , dry_run := false }

/-- The trace create_board_from_model produces on the witness input. -/
def tFix : List TrackerCall :=
  [.listProjects "octo", .addIssueToProject 9 4, .addIssueToProject 9 5]

/-- Witness for claim C7: on the witness input the counts account for exactly
the two in-map pairs, the failing pair (S3, Doing) is recorded in the failed
details, and the absent id S2 is in neither list (shown on the one added
entry). -/
theorem create_board_from_model_link_accounting_witness :
    sFix.added_issues + sFix.failed_issues
        = inMapCount imapFix boardFix.initial_assignments
    ∧ ({ story_id := "S3", issue_number := 5, column := "Doing" } : LinkItem)
        ∈ sFix.failed_issues_details
    ∧ ({ story_id := "S1", issue_number := 4, column := "Todo" } : LinkItem).story_id
        ≠ "S2" :=
  have h := create_board_from_model_link_accounting envLink boardFix imapFix
    projBoard false sFix tFix "S2" "Doing" "S3" ["S3"] 5 "link down"
    rfl (by decide)
  ⟨h.2.1, h.2.2 (by decide) (by decide) rfl rfl,
   (h.1 rfl).1 { story_id := "S1", issue_number := 4, column := "Todo" } (by decide)⟩

/-- Claim C8: label pre-provisioning attempts to create exactly one label per
story id, one epic-prefixed label per epic, one points label for every n from
1 to 10 regardless of use, and one label per distinct free-form tag; its trace
holds one createLabel call per required label whatever each call returns, so
no label failure aborts the remaining labels; in a non-dry sync the whole
provisioning trace precedes the per-story issue pass; under dry_run no
createLabel call happens at all; and the sync summary is unchanged under any
change of the createLabel behaviour, so label failures do not abort the
subsequent issue pass. -/
theorem ensure_labels_provisioning (env env2 : ClientEnv)
    (stories : List Story) (epics : List Epic)
    (_h1 : env2.repo = env.repo)
    (h2 : env2.listIssuesResult = env.listIssuesResult)
    (h3 : env2.createIssueResult = env.createIssueResult) :
    (ensure_labels_exist env stories epics).2
        = (requiredLabels stories epics).map (fun ld => TrackerCall.createLabel ld.lname)
    ∧ (requiredLabels stories epics).map LabelData.lname
        = stories.map Story.id
          ++ epics.map (fun e => "epic:" ++ e.id)
          ++ (List.range 10).map (fun k => "points:" ++ toString (k + 1))
          ++ ((stories.map Story.labels).flatten).eraseDups
    ∧ (sync_stories_to_issues env stories epics false).2
        = (ensure_labels_exist env stories epics).2
          ++ (syncLoop env epics false stories).2.2.2
    ∧ (∀ lname, TrackerCall.createLabel lname
          ∉ (sync_stories_to_issues env stories epics true).2)
    ∧ (sync_stories_to_issues env2 stories epics false).1
        = (sync_stories_to_issues env stories epics false).1 := by
  have hcou : ∀ (story : Story) (epic : Option Epic) (d : Bool),
      create_or_update_issue env2 story epic d
        = create_or_update_issue env story epic d := by
    intro story epic d
    unfold create_or_update_issue find_existing_issue
    rw [h2, h3]
  have hloop : ∀ ss : List Story,
      syncLoop env2 epics false ss = syncLoop env epics false ss := by
    intro ss
    induction ss with
    | nil => rfl
    | cons s rest ih => simp only [syncLoop, hcou, ih]
  have hdry : (sync_stories_to_issues env stories epics true).2
      = stories.map (fun _ => TrackerCall.listIssues) := by
    show (if true then [] else (ensure_labels_exist env stories epics).2)
        ++ (syncLoop env epics true stories).2.2.2 = _
    rw [if_pos rfl, List.nil_append, syncLoop_trace_dry]
  refine ⟨rfl, ?_, rfl, ?_, ?_⟩
  · simp only [requiredLabels, List.map_append, List.map_map]
    simp only [Function.comp_def]
    simp
  · intro lname hmem
    rw [hdry] at hmem
    rcases List.mem_map.mp hmem with ⟨s, _, habs⟩
    exact TrackerCall.noConfusion habs
  · unfold sync_stories_to_issues
    dsimp only
    rw [hloop]

/-- Environment identical to envCreateFails except that every createLabel
call raises. -/
def envLabelFail : ClientEnv :=
  { envCreateFails with createLabelResult := fun _ _ _ => .error "nope" }

/-- Witness for claim C8: with every label creation raising, the sync summary
equals the one under succeeding label creation; no createLabel call appears in
the dry-run trace; and the required label names for one story, no epic and no
tag are the story id followed by the ten points labels. -/
theorem ensure_labels_provisioning_witness :
    (sync_stories_to_issues envLabelFail [storyS1] [] false).1
        = (sync_stories_to_issues envCreateFails [storyS1] [] false).1
    ∧ TrackerCall.createLabel "S1"
        ∉ (sync_stories_to_issues envCreateFails [storyS1] [] true).2
    ∧ (requiredLabels [storyS1] []).map LabelData.lname
        = [storyS1].map Story.id
          ++ ([] : List Epic).map (fun e => "epic:" ++ e.id)
          ++ (List.range 10).map (fun k => "points:" ++ toString (k + 1))
          ++ (([storyS1].map Story.labels).flatten).eraseDups :=
  have h := ensure_labels_provisioning envCreateFails envLabelFail [storyS1] []
    rfl rfl rfl
  ⟨h.2.2.2.2, h.2.2.2.1 "S1", h.2.1⟩

end PMaC
